import Mathlib

/-!
Verification of the Sunrise Fashion page-schema / structured-data subsystem.

The definitions below are a shallow embedding of the JavaScript source:
`src/composables/usePageSchemas.js`, `src/composables/useStructuredData.js`,
`src/composables/useSEO.js`, `src/mixins/aiPageMixin.js` and
`src/services/mcpServer.js`.  JavaScript strings are `String`, JS integers
are `Int`/`Nat`, optional / possibly-`undefined` fields are `Option`, and
JS truthiness is made explicit (`""` and `0` are falsy, objects and arrays
are truthy).
-/

namespace Sunrise

/-- JS `String.prototype.includes` on character lists:
`pat` occurs as a contiguous substring. -/
def listHasSub (pat : List Char) : List Char → Bool
  | [] => pat.isEmpty
  | c :: cs => pat.isPrefixOf (c :: cs) || listHasSub pat cs

/-- JS `routePath.includes(pat)`. -/
def strIncludes (s pat : String) : Bool := listHasSub pat.data s.data

/-- JS `String.prototype.split` with a single-character separator. -/
def splitOnChar (sep : Char) : List Char → List (List Char)
  | [] => [[]]
  | c :: cs =>
    let r := splitOnChar sep cs
    if c = sep then [] :: r
    else
      match r with
      | [] => [[c]]
      | h :: t => (c :: h) :: t

/-- `detectPageType` from `usePageSchemas.js` (lines 28-43): route-path
classification, first match wins. -/
def detectPageType (routePath : String) : String :=
  if strIncludes routePath "/products/" && (splitOnChar '/' routePath.data).length > 2 then
    "product"
  else if strIncludes routePath "/products" then "category"
  else if routePath == "/" || strIncludes routePath "/home" then "home"
  else if strIncludes routePath "/search" then "search"
  else if strIncludes routePath "/cart" then "cart"
  else if strIncludes routePath "/checkout" then "checkout"
  else "page"

/-- The classification rules of §4.1, as an ordered list of
(predicate, page-type) pairs, written from the specification's wording. -/
def classifierRules : List ((String → Bool) × String) :=
  [ (fun p => strIncludes p "/products/" && (splitOnChar '/' p.data).length > 2, "product"),
    (fun p => strIncludes p "/products", "category"),
    (fun p => p == "/" || strIncludes p "/home", "home"),
    (fun p => strIncludes p "/search", "search"),
    (fun p => strIncludes p "/cart", "cart"),
    (fun p => strIncludes p "/checkout", "checkout") ]

/-- First-match-wins evaluation of `classifierRules`, default `"page"`. -/
def firstMatchType (p : String) : String :=
  match classifierRules.find? (fun r => r.1 p) with
  | some r => r.2
  | none => "page"

/-- The seven page types of the data model. -/
def pageTypes : List String :=
  ["home", "category", "product", "search", "cart", "checkout", "page"]

end Sunrise

namespace Sunrise

/-- C3: `detectPageType` is total over all strings, agrees everywhere with
first-match-wins evaluation of the ordered rule list, lands in the seven
page types, and takes the five documented values on the five sample paths. -/
theorem detectPageType_first_match_and_samples :
    (∀ p : String, detectPageType p = firstMatchType p ∧ detectPageType p ∈ pageTypes) ∧
    detectPageType "/products/abc" = "product" ∧
    detectPageType "/products" = "category" ∧
    detectPageType "/" = "home" ∧
    detectPageType "/search?q=x" = "search" ∧
    detectPageType "/unknown" = "page" := by
  refine ⟨fun p => ?_, by decide, by decide, by decide, by decide, by decide⟩
  cases h1 : strIncludes p "/products/" && ((splitOnChar '/' p.data).length > 2 : Bool) with
  | true => simp [detectPageType, firstMatchType, classifierRules, pageTypes, List.find?, h1]
  | false =>
  cases h2 : strIncludes p "/products" with
  | true => simp [detectPageType, firstMatchType, classifierRules, pageTypes, List.find?, h1, h2]
  | false =>
  cases h3 : (p == "/" || strIncludes p "/home") with
  | true =>
    simp [detectPageType, firstMatchType, classifierRules, pageTypes, List.find?, h1, h2, h3]
  | false =>
  cases h4 : strIncludes p "/search" with
  | true =>
    simp [detectPageType, firstMatchType, classifierRules, pageTypes, List.find?, h1, h2, h3, h4]
  | false =>
  cases h5 : strIncludes p "/cart" with
  | true =>
    simp [detectPageType, firstMatchType, classifierRules, pageTypes, List.find?,
      h1, h2, h3, h4, h5]
  | false =>
  cases h6 : strIncludes p "/checkout" <;>
    simp [detectPageType, firstMatchType, classifierRules, pageTypes, List.find?,
      h1, h2, h3, h4, h5, h6]

end Sunrise

namespace Sunrise

/-! ## Raw product data (both the flat shape and the nested
`masterData.current` CommerceTools shape, duck-typed as in the source) -/

/-- A JS number in exact decimal form: value `mant / 10 ^ exp`
(`4.5` is `⟨45, 1⟩`). Only stored and compared, never computed with. -/
structure JNum where
  mant : Int
  exp : Nat
deriving DecidableEq

/-- A JS value sitting where either a plain string or a localized
`{ en: ... }` object may appear (`name`, `description`, `slug`). -/
inductive JStrVal where
  | s (v : String)
  | loc (en : Option String)
deriving DecidableEq

/-- An entry of an `images` array: a bare URL string (flat/simplified shape)
or an `{ url }` object (CommerceTools shape). -/
inductive RawImg where
  | strUrl (u : String)
  | obj (url : Option String)
deriving DecidableEq

/-- An `availability` field: a string such as `'InStock'`/`'in_stock'`, or a
CommerceTools availability object carrying `isOnStock`. -/
inductive RawAvail where
  | str (s : String)
  | onStock (isOnStock : Option Bool)
deriving DecidableEq

structure RawRating where
  average : Option JNum := none
  count : Option JNum := none
deriving DecidableEq

structure RawMoney where
  centAmount : Option Int := none
  currencyCode : Option String := none
deriving DecidableEq

/-- A price object; the flat simplified shape may carry `centAmount`
directly, the CommerceTools shape nests it under `value`. -/
structure RawPrice where
  value : Option RawMoney := none
  centAmount : Option Int := none
  currencyCode : Option String := none
deriving DecidableEq

structure RawCatRef where
  id : Option String := none
  name : Option JStrVal := none
  slug : Option JStrVal := none
deriving DecidableEq

/-- Fields read off a variant (`masterVariant` or the object standing in
for it). -/
structure VarFields where
  sku : Option String := none
  images : Option (List RawImg) := none
  prices : Option (List RawPrice) := none
  availability : Option RawAvail := none
deriving DecidableEq

/-- The `masterData.current` object of the CommerceTools shape. -/
structure RawCurrent where
  name : Option JStrVal := none
  description : Option JStrVal := none
  slug : Option JStrVal := none
  masterVariant : Option VarFields := none
  sku : Option String := none
  images : Option (List RawImg) := none
  prices : Option (List RawPrice) := none
  availability : Option RawAvail := none
deriving DecidableEq

structure RawMasterData where
  current : Option RawCurrent := none
deriving DecidableEq

/-- A raw product object: the union of all fields either shape may carry
(duck typing made explicit; absent fields are `none`). -/
structure RawProduct where
  id : Option String := none
  name : Option JStrVal := none
  description : Option JStrVal := none
  sku : Option String := none
  slug : Option JStrVal := none
  images : Option (List RawImg) := none
  price : Option RawPrice := none
  prices : Option (List RawPrice) := none
  categories : Option (List RawCatRef) := none
  availability : Option RawAvail := none
  brand : Option String := none
  rating : Option RawRating := none
  masterData : Option RawMasterData := none
  masterVariant : Option VarFields := none
deriving DecidableEq

/-- JS truthiness of an optional string (`""` and `undefined` are falsy). -/
def truthyStr : Option String → Bool
  | some s => s ≠ ""
  | none => false

/-- JS truthiness of an optional string-or-localized value (objects are
always truthy, a plain string is truthy iff nonempty). -/
def truthyJStr : Option JStrVal → Bool
  | some (.s v) => v ≠ ""
  | some (.loc _) => true
  | none => false

/-- JS `x?.en` on a string-or-localized value: property access on a plain
string yields `undefined`. -/
def locEn : Option JStrVal → Option String
  | some (.loc (some e)) => some e
  | _ => none

/-- `toFixed(2)` of `centAmount / 100` as the source computes prices:
exact fixed-point rendering with two fraction digits (sound for every
integer amount a JS double represents exactly). -/
def twoDigitStr (r : Nat) : String :=
  (if r < 10 then "0" else "") ++ toString r

def centsToFixed2 (n : Int) : String :=
  (if n < 0 then "-" else "") ++ toString (n.natAbs / 100) ++ "." ++ twoDigitStr (n.natAbs % 100)

/-- The image list of the built product schema: the flat `images` array is
passed through as-is; the nested one is mapped over `img => img.url`. -/
inductive ImgOut where
  | raw (l : List RawImg)
  | urls (l : List (Option String))
deriving DecidableEq

structure AggregateRatingRec where
  ratingValue : JNum
  reviewCount : JNum
deriving DecidableEq

structure OfferRec where
  price : String
  priceCurrency : String
  availability : String
  sellerName : String
deriving DecidableEq

/-- The product schema record built by `addProductSchema`
(after its `undefined`-key cleanup: `sku`/`aggregateRating` being `none`
means the key was deleted). -/
structure ProductSchemaRec where
  name : JStrVal
  description : JStrVal
  sku : Option String
  brandName : String
  category : String
  image : ImgOut
  offers : OfferRec
  aggregateRating : Option AggregateRatingRec
deriving DecidableEq

/-- `product.masterData?.current` -/
def mdCurrent (p : RawProduct) : Option RawCurrent :=
  p.masterData.bind (·.current)

/-- `product.masterData?.current?.masterVariant` -/
def mdVariant (p : RawProduct) : Option VarFields :=
  (mdCurrent p).bind (·.masterVariant)

/-- Structured-data builder `addProductSchema` from `useStructuredData.js`
lines 97-137, restricted to the record it builds (the registry side effect
is modelled separately). -/
def buildProductSchema (p : RawProduct) : ProductSchemaRec :=
  { name :=
      if truthyJStr p.name then p.name.getD (.s "") else
      match locEn ((mdCurrent p).bind (·.name)) with
      | some e => if e ≠ "" then .s e else .s "Product"
      | none => .s "Product"
    description :=
      if truthyJStr p.description then p.description.getD (.s "") else
      match locEn ((mdCurrent p).bind (·.description)) with
      | some e => if e ≠ "" then .s e else .s ""
      | none => .s ""
    sku :=
      if truthyStr p.sku then p.sku else (mdVariant p).bind (·.sku)
    brandName :=
      if truthyStr p.brand then p.brand.getD "" else "Sunrise Fashion"
    category :=
      match p.categories with
      | some (c :: _) =>
        match locEn c.name with
        | some e => if e ≠ "" then e else "Fashion"
        | none => "Fashion"
      | _ => "Fashion"
    image :=
      match p.images with
      | some l => .raw l
      | none =>
        match (mdVariant p).bind (·.images) with
        | some l => .urls (l.map fun i => match i with | .strUrl _ => none | .obj u => u)
        | none => .raw []
    offers :=
      { price :=
          match (p.price.bind (·.value)).bind (·.centAmount) with
          | some n => if n ≠ 0 then centsToFixed2 n else "0.00"
          | none => "0.00"
        priceCurrency :=
          match (p.price.bind (·.value)).bind (·.currencyCode) with
          | some c => if c ≠ "" then c else "EUR"
          | none => "EUR"
        availability :=
          if p.availability = some (.str "InStock") then "https://schema.org/InStock"
          else "https://schema.org/OutOfStock"
        sellerName := "Sunrise Fashion" }
    aggregateRating :=
      match p.rating with
      | some r =>
        some { ratingValue := match r.average with
                 | some a => if a.mant ≠ 0 then a else ⟨45, 1⟩
                 | none => ⟨45, 1⟩
               reviewCount := match r.count with
                 | some c => if c.mant ≠ 0 then c else ⟨1, 0⟩
                 | none => ⟨1, 0⟩ }
      | none => none }

/-- `addProductSchema`'s early return: a missing product adds nothing. -/
def addProductSchemaRecord (p : Option RawProduct) : Option ProductSchemaRec :=
  p.map buildProductSchema

theorem twoDigitStr_len : ∀ r : Nat, r < 100 → (twoDigitStr r).length = 2 := by decide

/-- Sample product for concrete evaluations: `centAmount 12345`, `USD`. -/
def pUSD : RawProduct :=
  { price := some { value := some { centAmount := some 12345, currencyCode := some "USD" } } }

end Sunrise

namespace Sunrise

/-- C2: for every product whose `price.value.centAmount` is an integer `n`
and whose `currencyCode` is a nonempty string, the built offer's `price` is
the exact fixed-point decimal string of `n / 100`: the fraction part has
exactly two digits and integer part `q` and fraction `r` recombine to
`100 * q + r = |n|`; `priceCurrency` is the input currency code. -/
theorem addProductSchema_price_exact (p : RawProduct) (n : Int) (cur : String)
    (hc : (p.price.bind (·.value)).bind (·.centAmount) = some n)
    (hcur : (p.price.bind (·.value)).bind (·.currencyCode) = some cur)
    (hne : cur ≠ "") :
    (buildProductSchema p).offers.priceCurrency = cur ∧
    (buildProductSchema p).offers.price =
      (if n < 0 then "-" else "") ++ toString (n.natAbs / 100) ++ "." ++
        twoDigitStr (n.natAbs % 100) ∧
    (twoDigitStr (n.natAbs % 100)).length = 2 ∧
    100 * (n.natAbs / 100) + n.natAbs % 100 = n.natAbs := by
  have hmod : n.natAbs % 100 < 100 := Nat.mod_lt _ (by norm_num)
  refine ⟨?_, ?_, twoDigitStr_len _ hmod, Nat.div_add_mod _ _⟩
  · simp [buildProductSchema, hcur, hne]
  · by_cases hn : n = 0
    · subst hn
      simp only [buildProductSchema, hc]
      decide
    · simp [buildProductSchema, hc, hn, centsToFixed2]

theorem addProductSchema_price_exact_witness :
    (buildProductSchema pUSD).offers.price = "123.45" ∧
    (buildProductSchema pUSD).offers.priceCurrency = "USD" := by
  have h := addProductSchema_price_exact pUSD 12345 "USD" rfl rfl (by decide)
  exact ⟨h.2.1.trans (by decide), h.1⟩

/-- C7: the product-schema builder is a total function (no exception on
missing optional fields) and supplies the documented fallbacks: brand
defaults to `Sunrise Fashion`, currency defaults to `EUR`, availability is
the schema.org `InStock` URI exactly when the raw availability is the
string `'InStock'` and the `OutOfStock` URI otherwise; the all-fields-
missing product builds the fully defaulted record. -/
theorem addProductSchema_fallbacks (p : RawProduct) :
    addProductSchemaRecord (some p) = some (buildProductSchema p) ∧
    ((p.brand = none ∨ p.brand = some "") →
      (buildProductSchema p).brandName = "Sunrise Fashion") ∧
    (((p.price.bind (·.value)).bind (·.currencyCode) = none ∨
      (p.price.bind (·.value)).bind (·.currencyCode) = some "") →
      (buildProductSchema p).offers.priceCurrency = "EUR") ∧
    ((buildProductSchema p).offers.availability = "https://schema.org/InStock" ↔
      p.availability = some (.str "InStock")) ∧
    (p.availability ≠ some (.str "InStock") →
      (buildProductSchema p).offers.availability = "https://schema.org/OutOfStock") ∧
    buildProductSchema {} =
      { name := .s "Product", description := .s "", sku := none,
        brandName := "Sunrise Fashion", category := "Fashion", image := .raw [],
        offers := ⟨"0.00", "EUR", "https://schema.org/OutOfStock", "Sunrise Fashion"⟩,
        aggregateRating := none } := by
  refine ⟨rfl, ?_, ?_, ?_, ?_, by decide⟩
  · rintro (h | h) <;> simp [buildProductSchema, truthyStr, h]
  · rintro (h | h) <;> simp [buildProductSchema, h]
  · by_cases h : p.availability = some (.str "InStock") <;> simp [buildProductSchema, h]
  · intro h
    simp [buildProductSchema, h]

theorem addProductSchema_fallbacks_witness :
    (buildProductSchema {}).brandName = "Sunrise Fashion" ∧
    (buildProductSchema {}).offers.priceCurrency = "EUR" ∧
    (buildProductSchema {}).offers.availability = "https://schema.org/OutOfStock" := by
  have h := addProductSchema_fallbacks {}
  exact ⟨h.2.1 (Or.inl rfl), h.2.2.1 (Or.inl rfl), h.2.2.2.2.1 (by simp)⟩

end Sunrise

namespace Sunrise

/-! ## Data Normalizer (`normalizeProductData`, `aiPageMixin.js` 52-77) -/

/-- The fields the source reads off `current`
(`current = product.masterData?.current || product`), together with the
variant fields of the same object (used when `masterVariant` is absent,
since then `variant = current`). -/
structure CurView where
  name : Option JStrVal
  description : Option JStrVal
  slug : Option JStrVal
  masterVariant : Option VarFields
  selfVar : VarFields
deriving DecidableEq

def curView (p : RawProduct) : CurView :=
  match mdCurrent p with
  | some c => ⟨c.name, c.description, c.slug, c.masterVariant,
      ⟨c.sku, c.images, c.prices, c.availability⟩⟩
  | none => ⟨p.name, p.description, p.slug, p.masterVariant,
      ⟨p.sku, p.images, p.prices, p.availability⟩⟩

/-- `variant = current.masterVariant || current` -/
def varView (cv : CurView) : VarFields := cv.masterVariant.getD cv.selfVar

/-- `b || c` on string-or-localized values (`b` truthy unless it is an
empty plain string or absent). -/
def jsOr2 (b c : Option JStrVal) : Option JStrVal := if truthyJStr b then b else c

/-- `a?.en || b || c` as in `current.name?.en || current.name || product.name`. -/
def jsOrJStr (a : Option String) (b c : Option JStrVal) : Option JStrVal :=
  match a with
  | some e => if e ≠ "" then some (.s e) else jsOr2 b c
  | none => jsOr2 b c

/-- `a || d` on a JS number (`0` is falsy). -/
def jsOrIntD (a : Option Int) (d : Int) : Int :=
  match a with
  | some v => if v ≠ 0 then v else d
  | none => d

/-- `a || d` on a JS string (`""` is falsy). -/
def jsOrStrD (a : Option String) (d : String) : String :=
  match a with
  | some v => if v ≠ "" then v else d
  | none => d

/-- JS `img.url`: `undefined` on a bare string entry. -/
def imgUrl : RawImg → Option String
  | .strUrl _ => none
  | .obj u => u

/-- JS `a?.isOnStock`: `undefined` on a string availability. -/
def onStockField : RawAvail → Option Bool
  | .onStock b => b
  | .str _ => none

/-- Output of the Data Normalizer. `price` is the
`{ value: { centAmount, currencyCode } }` pair it always constructs. -/
structure NormalizedProduct where
  id : Option String
  name : Option JStrVal
  description : Option JStrVal
  sku : Option String
  slug : Option JStrVal
  images : ImgOut
  priceCent : Int
  priceCurrency : String
  categories : List RawCatRef
  availability : String
  brand : String
  rating : RawRating
deriving DecidableEq

/-- `normalizeProductData` body, for a non-null product
(`aiPageMixin.js` lines 55-76). -/
def normalizeProductRec (p : RawProduct) : NormalizedProduct :=
  let cv := curView p
  let v := varView cv
  { id := p.id
    name := jsOrJStr (locEn cv.name) cv.name p.name
    description := jsOrJStr (locEn cv.description) cv.description p.description
    sku := if truthyStr v.sku then v.sku else p.sku
    slug := jsOrJStr (locEn cv.slug) cv.slug p.slug
    images :=
      match v.images with
      | some l => .urls (l.map imgUrl)
      | none =>
        match p.images with
        | some l => .raw l
        | none => .raw []
    priceCent :=
      jsOrIntD (((v.prices.bind List.head?).bind (·.value)).bind (·.centAmount))
        (jsOrIntD (p.price.bind (·.centAmount)) 0)
    priceCurrency :=
      jsOrStrD (((v.prices.bind List.head?).bind (·.value)).bind (·.currencyCode))
        (jsOrStrD (p.price.bind (·.currencyCode)) "EUR")
    categories := p.categories.getD []
    availability :=
      if (v.availability.bind onStockField) = some true then "InStock" else "OutOfStock"
    brand := if truthyStr p.brand then p.brand.getD "" else "Sunrise Fashion"
    rating := p.rating.getD ⟨some ⟨45, 1⟩, some ⟨1, 0⟩⟩ }

/-- `normalizeProductData` including the `if (!product) return null` guard. -/
def normalizeProductData (p : Option RawProduct) : Option NormalizedProduct :=
  p.map normalizeProductRec

/-- A raw product whose availability field is the CommerceTools
availability object `{ isOnStock: true }`, not the string `'InStock'`. -/
def pOnStock : RawProduct := { availability := some (.onStock (some true)) }

/-- A raw flat product whose availability field is literally the string
`'InStock'`. -/
def pInStockStr : RawProduct := { availability := some (.str "InStock") }

end Sunrise

namespace Sunrise

/-- C6 counterexample: a raw product whose availability field is
`{ isOnStock: true }` — a value other than the literal string `'InStock'`
— normalizes to `'InStock'`, not `'OutOfStock'` as the claim requires. -/
theorem normalize_availability_counterexample :
    pOnStock.availability ≠ some (.str "InStock") ∧
    normalizeProductData (some pOnStock) ≠ none ∧
    (normalizeProductData (some pOnStock)).map (·.availability) = some "InStock" ∧
    (normalizeProductData (some pOnStock)).map (·.availability) ≠ some "OutOfStock" := by
  refine ⟨by decide, by decide, by decide, by decide⟩

/-- C6 amended: `normalizeProductData` outputs `'InStock'` exactly when the
effective variant's availability is an object with `isOnStock: true`; in
particular any product whose effective availability is a string — even the
string `'InStock'` itself — or missing normalizes to `'OutOfStock'`. -/
theorem normalize_availability_isOnStock (p : RawProduct) :
    ((normalizeProductRec p).availability = "InStock" ↔
      ((varView (curView p)).availability.bind onStockField) = some true) ∧
    (∀ s, (varView (curView p)).availability = some (.str s) →
      (normalizeProductRec p).availability = "OutOfStock") ∧
    ((varView (curView p)).availability = none →
      (normalizeProductRec p).availability = "OutOfStock") := by
  refine ⟨?_, ?_, ?_⟩
  · by_cases h : ((varView (curView p)).availability.bind onStockField) = some true <;>
      simp [normalizeProductRec, h]
  · intro s hs
    simp [normalizeProductRec, hs, onStockField]
  · intro hs
    simp [normalizeProductRec, hs]

theorem normalize_availability_isOnStock_witness :
    (normalizeProductRec pInStockStr).availability = "OutOfStock" :=
  (normalize_availability_isOnStock pInStockStr).2.1 "InStock" (by decide)

end Sunrise

namespace Sunrise

/-- Modelled from the spec: a flat-shape product `f` and a nested
`masterData.current` master-variant product `n` "carrying equivalent
information" — same id, categories, brand and rating; the same nonempty
name/description/slug strings (plain on `f`, localized under `en` on `n`);
the same nonempty sku; the same image URLs (bare strings on `f`, `{ url }`
objects on `n`); the same `centAmount`/`currencyCode`; and both in stock
(`'InStock'` on `f`, `{ isOnStock: true }` on the variant of `n`). -/
def EquivInfo (f n : RawProduct) : Prop :=
  f.masterData = none ∧ f.masterVariant = none ∧ f.prices = none ∧
  ∃ c v,
    n.masterData = some ⟨some c⟩ ∧ c.masterVariant = some v ∧
    c.sku = none ∧ c.images = none ∧ c.prices = none ∧ c.availability = none ∧
    n.name = none ∧ n.description = none ∧ n.slug = none ∧ n.sku = none ∧
    n.images = none ∧ n.price = none ∧ n.prices = none ∧ n.availability = none ∧
    n.masterVariant = none ∧
    n.id = f.id ∧ n.categories = f.categories ∧ n.brand = f.brand ∧ n.rating = f.rating ∧
    (∃ nm, nm ≠ "" ∧ f.name = some (.s nm) ∧ c.name = some (.loc (some nm))) ∧
    (∃ ds, ds ≠ "" ∧ f.description = some (.s ds) ∧ c.description = some (.loc (some ds))) ∧
    (∃ sl, sl ≠ "" ∧ f.slug = some (.s sl) ∧ c.slug = some (.loc (some sl))) ∧
    (∃ sk, sk ≠ "" ∧ f.sku = some sk ∧ v.sku = some sk) ∧
    (∃ us : List String, f.images = some (us.map .strUrl) ∧
      v.images = some (us.map fun u => .obj (some u))) ∧
    (∃ cents cur, f.price = some { centAmount := some cents, currencyCode := some cur } ∧
      v.prices = some [{ value := some ⟨some cents, some cur⟩ }]) ∧
    f.availability = some (.str "InStock") ∧ v.availability = some (.onStock (some true))

/-- Concrete nested master variant for the C5 pair. -/
def v0 : VarFields :=
  { sku := some "S1", images := some [.obj (some "u1")],
    prices := some [{ value := some ⟨some 1000, some "EUR"⟩ }],
    availability := some (.onStock (some true)) }

/-- Concrete nested `masterData.current` for the C5 pair. -/
def c0 : RawCurrent :=
  { name := some (.loc (some "Dress")), description := some (.loc (some "Nice")),
    slug := some (.loc (some "dress")), masterVariant := some v0 }

/-- Concrete flat-shape product of the C5 pair. -/
def f0 : RawProduct :=
  { id := some "p1", name := some (.s "Dress"), description := some (.s "Nice"),
    sku := some "S1", slug := some (.s "dress"), images := some [.strUrl "u1"],
    price := some { centAmount := some 1000, currencyCode := some "EUR" },
    categories := some [], availability := some (.str "InStock"),
    brand := some "Sunrise Fashion", rating := some ⟨some ⟨45, 1⟩, some ⟨1, 0⟩⟩ }

/-- Concrete nested-shape product of the C5 pair, carrying the same
information as `f0`. -/
def n0 : RawProduct :=
  { id := some "p1", categories := some [], brand := some "Sunrise Fashion",
    rating := some ⟨some ⟨45, 1⟩, some ⟨1, 0⟩⟩, masterData := some ⟨some c0⟩ }

theorem equivInfo_f0_n0 : EquivInfo f0 n0 := by
  refine ⟨rfl, rfl, rfl, c0, v0, rfl, rfl, rfl, rfl, rfl, rfl, rfl, rfl, rfl, rfl,
    rfl, rfl, rfl, rfl, rfl, rfl, rfl, rfl, rfl,
    ⟨"Dress", by decide, rfl, rfl⟩, ⟨"Nice", by decide, rfl, rfl⟩,
    ⟨"dress", by decide, rfl, rfl⟩, ⟨"S1", by decide, rfl, rfl⟩,
    ⟨["u1"], rfl, rfl⟩, ⟨1000, "EUR", rfl, rfl⟩, rfl, rfl⟩

end Sunrise

namespace Sunrise

/-- C5 counterexample: the flat product `f0` and the nested product `n0`
carry equivalent information, yet `normalizeProductData` yields different
records — the flat one normalizes to `OutOfStock` with images `[undefined]`
while the nested one normalizes to `InStock` with images `["u1"]`. -/
theorem normalize_shape_equiv_counterexample :
    EquivInfo f0 n0 ∧
    normalizeProductRec f0 ≠ normalizeProductRec n0 ∧
    (normalizeProductRec f0).availability = "OutOfStock" ∧
    (normalizeProductRec n0).availability = "InStock" ∧
    (normalizeProductRec f0).images = .urls [none] ∧
    (normalizeProductRec n0).images = .urls [some "u1"] :=
  ⟨equivInfo_f0_n0, by decide, by decide, by decide, by decide, by decide⟩

/-- C5 amended: for every information-equivalent flat/nested pair the
normalizer agrees on id, name, description, sku, slug, price, categories,
brand and rating; but it does not agree on availability (flat string
availability gives `OutOfStock`, nested `isOnStock: true` gives `InStock`)
nor on images (flat bare-string images are mapped to `undefined` entries). -/
theorem normalizeProductData_shape_equiv (f n : RawProduct) (h : EquivInfo f n) :
    (normalizeProductRec f).id = (normalizeProductRec n).id ∧
    (normalizeProductRec f).name = (normalizeProductRec n).name ∧
    (normalizeProductRec f).description = (normalizeProductRec n).description ∧
    (normalizeProductRec f).sku = (normalizeProductRec n).sku ∧
    (normalizeProductRec f).slug = (normalizeProductRec n).slug ∧
    (normalizeProductRec f).priceCent = (normalizeProductRec n).priceCent ∧
    (normalizeProductRec f).priceCurrency = (normalizeProductRec n).priceCurrency ∧
    (normalizeProductRec f).categories = (normalizeProductRec n).categories ∧
    (normalizeProductRec f).brand = (normalizeProductRec n).brand ∧
    (normalizeProductRec f).rating = (normalizeProductRec n).rating ∧
    (normalizeProductRec f).availability = "OutOfStock" ∧
    (normalizeProductRec n).availability = "InStock" ∧
    (∃ us : List String, (normalizeProductRec f).images = .urls (us.map fun _ => none) ∧
      (normalizeProductRec n).images = .urls (us.map some)) := by
  obtain ⟨hfmd, hfmv, hfpr, c, v, hnmd, hcmv, hcsku, hcimg, hcpr, hcav,
    hnname, hndesc, hnslug, hnsku, hnimg, hnprice, hnprices, hnav, hnmv,
    hnid, hncat, hnbrand, hnrating,
    ⟨nm, hnm, hfname, hcname⟩, ⟨ds, hds, hfdesc, hcdesc⟩, ⟨sl, hsl, hfslug, hcslug⟩,
    ⟨sk, hsk, hfsku, hvsku⟩, ⟨us, hfimg, hvimg⟩,
    ⟨cents, cur, hfprice, hvprices⟩, hfav, hvav⟩ := h
  refine ⟨?_, ?_, ?_, ?_, ?_, ?_, ?_, ?_, ?_, ?_, ?_, ?_, ⟨us, ?_, ?_⟩⟩ <;>
    simp [normalizeProductRec, curView, varView, mdCurrent, jsOrJStr, jsOr2, locEn,
      truthyJStr, truthyStr, jsOrIntD, jsOrStrD, imgUrl, onStockField,
      hfmd, hfmv, hfpr, hnmd, hcmv, hcsku, hcimg, hcpr, hcav,
      hnname, hndesc, hnslug, hnsku, hnimg, hnprice, hnprices, hnav, hnmv,
      hnid, hncat, hnbrand, hnrating, hnm, hfname, hcname, hds, hfdesc, hcdesc,
      hsl, hfslug, hcslug, hsk, hfsku, hvsku, hfimg, hvimg, hfprice, hvprices,
      hfav, hvav, Function.comp_def, List.map_const']

theorem normalizeProductData_shape_equiv_witness :
    (normalizeProductRec f0).name = (normalizeProductRec n0).name ∧
    (normalizeProductRec f0).priceCent = (normalizeProductRec n0).priceCent ∧
    (normalizeProductRec f0).availability = "OutOfStock" ∧
    (normalizeProductRec n0).availability = "InStock" := by
  obtain ⟨hid, hname, hdesc, hsku, hslug, hcent, hcur, hcat, hbrand, hrating,
    havF, havN, himg⟩ := normalizeProductData_shape_equiv f0 n0 equivInfo_f0_n0
  exact ⟨hname, hcent, havF, havN⟩

end Sunrise

namespace Sunrise

/-! ## DOM Tag Registry (`useStructuredData.js` 3-41) and Page Schema
Orchestrator (`usePageSchemas.js` 46-171).

An `Elem` models an injected `<script type="application/ld+json">`
element; `key` is a creation stamp standing for object identity.  `head`
is the document head, `tracked` the registry's `structuredDataElements`
array.  Handlers return a `Bool` flag that is `true` when the original
code raises a `TypeError`: `usePageSchemas.js` line 25 destructures
`updateTitle`/`updateDescription` from `useSEO()`, which exports neither,
so the first call to them aborts the handler; DOM effects made before
that point persist. -/

structure Crumb where
  name : Option String := none
  url : Option String := none
deriving DecidableEq

structure FAQItem where
  question : Option String := none
  answer : Option String := none
deriving DecidableEq

structure CartItem where
  name : Option String := none
  quantity : Option Int := none
  price : Option JNum := none
deriving DecidableEq

structure OfferItem where
  name : Option String := none
  description : Option String := none
  discount : Option String := none
  validThrough : Option String := none
deriving DecidableEq

structure CategoryData where
  id : Option String := none
  name : Option String := none
  description : Option String := none
  url : Option String := none
  productCount : Option Int := none
deriving DecidableEq

/-- The JSON-LD payload of a registered tag, abstracted to the builder
that produced it together with its input data (`raw` covers direct
`addStructuredData` calls with arbitrary data). -/
inductive SchemaData where
  | raw (s : String)
  | productS (r : ProductSchemaRec)
  | breadcrumb (l : List Crumb)
  | ecommerceSite
  | faq
  | categoryS (c : CategoryData)
  | productList (ps : List RawProduct) (c : Option CategoryData)
  | searchResults (rs : List RawProduct) (q : String)
  | shoppingCart (items : List CartItem)
  | specialOffers (l : List OfferItem)
  | featured (ps : List RawProduct)
  | productFAQ (l : List FAQItem)
deriving DecidableEq

structure Elem where
  key : Nat
  id : Option String
  content : SchemaData
deriving DecidableEq

structure SDState where
  nextKey : Nat
  head : List Elem
  tracked : List Elem
deriving DecidableEq

def initSD : SDState := ⟨0, [], []⟩

def isId (i : String) (e : Elem) : Bool := e.id == some i

/-- `addStructuredData(data, id)`: create the script element, remove any
existing DOM element with the same id (`document.getElementById` finds the
first), append to the head, and push onto the tracked array — the replaced
element is *not* removed from the tracked array. -/
def addStructuredData (st : SDState) (data : SchemaData) (id : Option String) : SDState :=
  let script : Elem := ⟨st.nextKey, id, data⟩
  let head' :=
    match id with
    | some i => st.head.eraseP (isId i)
    | none => st.head
  ⟨st.nextKey + 1, head' ++ [script], st.tracked ++ [script]⟩

def getElementById (st : SDState) (i : String) : Option Elem :=
  st.head.find? (isId i)

/-- `removeStructuredData(id)`: remove the first DOM element with that id
and filter it out of the tracked array. -/
def removeStructuredData (st : SDState) (i : String) : SDState :=
  match getElementById st i with
  | some e => ⟨st.nextKey, st.head.eraseP (isId i), st.tracked.filter (fun x => x ≠ e)⟩
  | none => st

/-- `addBreadcrumbSchema` (`useStructuredData.js` 140-155): adds nothing
for an empty breadcrumb list. -/
def addBreadcrumbSchema (bs : List Crumb) (st : SDState) : SDState :=
  if bs.length = 0 then st
  else addStructuredData st (.breadcrumb bs) (some "breadcrumb-schema")

/-- The `data` bag handed to `updatePageSchemas`. -/
structure PageData where
  product : Option RawProduct := none
  breadcrumbs : Option (List Crumb) := none
  productFAQ : Option (List FAQItem) := none
  category : Option CategoryData := none
  products : Option (List RawProduct) := none
  searchResults : Option (List RawProduct) := none
  query : Option String := none
  cartItems : Option (List CartItem) := none
  featuredProducts : Option (List RawProduct) := none
  offers : Option (List OfferItem) := none
  title : Option String := none
  description : Option String := none
deriving DecidableEq

def handleProductPage (d : PageData) (st : SDState) : SDState × Bool :=
  match d.product with
  | some p => (addStructuredData st (.productS (buildProductSchema p)) (some "product-schema"), true)
  | none =>
    let st1 := match d.breadcrumbs with
      | some bs => addBreadcrumbSchema bs st
      | none => st
    let st2 := match d.productFAQ with
      | some fs => addStructuredData st1 (.productFAQ fs) (some "product-faq-schema")
      | none => st1
    (st2, false)

def handleCategoryPage (d : PageData) (st : SDState) : SDState × Bool :=
  let st0 := addStructuredData st .ecommerceSite (some "ecommerce-site-schema")
  match d.category with
  | some c => (addStructuredData st0 (.categoryS c) (some "category-schema"), true)
  | none =>
    let st1 := match d.breadcrumbs with
      | some bs => addBreadcrumbSchema bs st0
      | none => st0
    let st2 := match d.products with
      | some ps =>
        if ps.length > 0 then
          addStructuredData st1 (.productList ps d.category) (some "product-list-schema")
        else st1
      | none => st1
    (st2, false)

def handleHomePage (d : PageData) (st : SDState) : SDState × Bool :=
  let st0 := addStructuredData st .ecommerceSite (some "ecommerce-site-schema")
  let st1 := addStructuredData st0 .faq (some "faq-schema")
  let st2 := match d.featuredProducts with
    | some ps => addStructuredData st1 (.featured ps) (some "featured-products-schema")
    | none => st1
  let st3 := match d.offers with
    | some os => addStructuredData st2 (.specialOffers os) (some "offers-schema")
    | none => st2
  (st3, false)

def handleSearchPage (d : PageData) (st : SDState) : SDState × Bool :=
  match d.searchResults, d.query with
  | some rs, some q =>
    if q ≠ "" then (addStructuredData st (.searchResults rs q) (some "search-schema"), true)
    else (st, false)
  | _, _ => (st, false)

def handleCartPage (d : PageData) (st : SDState) : SDState × Bool :=
  match d.cartItems with
  | some items => (addStructuredData st (.shoppingCart items) (some "cart-schema"), true)
  | none => (st, false)

def handleGenericPage (d : PageData) (st : SDState) : SDState × Bool :=
  let st0 := addStructuredData st .ecommerceSite (some "ecommerce-site-schema")
  if truthyStr d.title then (st0, true)
  else if truthyStr d.description then (st0, true)
  else (st0, false)

/-- Orchestrator state: the registry plus the stored page context. -/
structure OrchState where
  sd : SDState
  currentPageType : String := "home"
  currentPageData : PageData := {}
deriving DecidableEq

def initOrch : OrchState := ⟨initSD, "home", {}⟩

/-- The six fixed tag ids removed at the start of `updatePageSchemas`. -/
def sixIds : List String :=
  ["product-schema", "breadcrumb-schema", "ecommerce-schema",
   "faq-schema", "category-schema", "search-schema"]

def clearSix (st : SDState) : SDState :=
  removeStructuredData (removeStructuredData (removeStructuredData
    (removeStructuredData (removeStructuredData (removeStructuredData
      st "product-schema") "breadcrumb-schema") "ecommerce-schema")
        "faq-schema") "category-schema") "search-schema"

/-- `updatePageSchemas(pageType, data)` (`usePageSchemas.js` 46-84):
clear the six fixed ids, store the context, dispatch on `pageType`. -/
def updatePageSchemas (pageType : String) (d : PageData) (st : OrchState) : OrchState × Bool :=
  let sd := clearSix st.sd
  let r :=
    if pageType = "product" then handleProductPage d sd
    else if pageType = "category" then handleCategoryPage d sd
    else if pageType = "home" then handleHomePage d sd
    else if pageType = "search" then handleSearchPage d sd
    else if pageType = "cart" then handleCartPage d sd
    else handleGenericPage d sd
  (⟨r.1, pageType, d⟩, r.2)

/-! ### Registry invariants -/

/-- Number of head elements carrying DOM id `i`. -/
def countId (i : String) (l : List Elem) : Nat := (l.filter (isId i)).length

/-- Every DOM id occurs at most once in the head. -/
def UniqueIds (l : List Elem) : Prop := ∀ i, countId i l ≤ 1

theorem countId_cons (i : String) (e : Elem) (t : List Elem) :
    countId i (e :: t) = (if isId i e then 1 else 0) + countId i t := by
  by_cases h : isId i e
  · simp [countId, List.filter_cons, h]
    omega
  · simp [countId, List.filter_cons, h]

theorem countId_append (i : String) (l r : List Elem) :
    countId i (l ++ r) = countId i l + countId i r := by
  simp [countId, List.filter_append]

theorem countId_eraseP_le (i j : String) (l : List Elem) :
    countId i (l.eraseP (isId j)) ≤ countId i l := by
  induction l with
  | nil => simp [countId]
  | cons e t ih =>
    by_cases h : isId j e
    · simp only [List.eraseP_cons, h, cond_true, countId_cons]
      omega
    · simp only [List.eraseP_cons, h, cond_false, countId_cons]
      omega

theorem isId_ne_of_isId (i j : String) (e : Elem) (hne : i ≠ j) (h : isId j e) :
    isId i e = false := by
  simp [isId] at h ⊢
  simp [h]
  exact fun hc => hne hc.symm

theorem countId_eraseP_ne (i j : String) (l : List Elem) (hne : i ≠ j) :
    countId i (l.eraseP (isId j)) = countId i l := by
  induction l with
  | nil => simp
  | cons e t ih =>
    by_cases h : isId j e
    · simp only [List.eraseP_cons, h, cond_true, countId_cons,
        isId_ne_of_isId i j e hne h]
      simp
    · simp only [List.eraseP_cons, h, cond_false, countId_cons, ih]

theorem countId_eraseP_self (i : String) (l : List Elem) (h : countId i l ≤ 1) :
    countId i (l.eraseP (isId i)) = 0 := by
  induction l with
  | nil => simp [countId]
  | cons e t ih =>
    by_cases he : isId i e
    · simp only [List.eraseP_cons, he, cond_true]
      rw [countId_cons, he] at h
      simp at h
      omega
    · rw [countId_cons, if_neg he] at h
      have he' : isId i e = false := by simpa using he
      simp only [List.eraseP_cons, he', cond_false, countId_cons, if_neg he]
      simp [ih (by omega)]

theorem countId_eq_zero_not_mem (i : String) (l : List Elem) (e : Elem)
    (h : countId i l = 0) (he : e ∈ l) (hid : isId i e) : False := by
  have : e ∈ l.filter (isId i) := List.mem_filter.mpr ⟨he, hid⟩
  rw [List.eq_nil_of_length_eq_zero h] at this
  exact absurd this (List.not_mem_nil e)

theorem countId_of_find?_none (i : String) (l : List Elem) (h : l.find? (isId i) = none) :
    countId i l = 0 := by
  have hall := List.find?_eq_none.mp h
  simp only [countId, List.length_eq_zero]
  exact List.filter_eq_nil_iff.mpr fun a ha => by simpa using hall a ha

theorem add_countId_self (st : SDState) (d : SchemaData) (j : String)
    (h : countId j st.head ≤ 1) :
    countId j (addStructuredData st d (some j)).head = 1 := by
  simp only [addStructuredData, countId_append, countId_eraseP_self j st.head h]
  simp [countId_cons, countId, isId]

theorem add_countId_ne (st : SDState) (d : SchemaData) (i j : String) (hne : i ≠ j) :
    countId i (addStructuredData st d (some j)).head = countId i st.head := by
  simp only [addStructuredData, countId_append, countId_eraseP_ne i j st.head hne]
  have : isId i (⟨st.nextKey, some j, d⟩ : Elem) = false := by
    simp [isId]
    exact fun hc => hne hc.symm
  simp [countId_cons, countId, this]

theorem add_countId_none (st : SDState) (d : SchemaData) (i : String) :
    countId i (addStructuredData st d none).head = countId i st.head := by
  simp [addStructuredData, countId_append, countId_cons, countId, isId]

theorem add_preserves_unique (st : SDState) (d : SchemaData) (oid : Option String)
    (h : UniqueIds st.head) : UniqueIds (addStructuredData st d oid).head := by
  intro i
  match oid with
  | none => rw [add_countId_none]; exact h i
  | some j =>
    by_cases hij : i = j
    · subst hij
      rw [add_countId_self st d i (h i)]
    · rw [add_countId_ne st d i j hij]
      exact h i

theorem remove_nextKey (st : SDState) (i : String) :
    (removeStructuredData st i).nextKey = st.nextKey := by
  unfold removeStructuredData
  cases h : getElementById st i <;> simp

theorem remove_countId_le (st : SDState) (i j : String) :
    countId i (removeStructuredData st j).head ≤ countId i st.head := by
  unfold removeStructuredData
  cases h : getElementById st j
  · simp
  · simpa using countId_eraseP_le i j st.head

theorem remove_preserves_unique (st : SDState) (i : String)
    (h : UniqueIds st.head) : UniqueIds (removeStructuredData st i).head :=
  fun j => le_trans (remove_countId_le st j i) (h j)

theorem remove_countId_self (st : SDState) (i : String) (h : UniqueIds st.head) :
    countId i (removeStructuredData st i).head = 0 := by
  unfold removeStructuredData
  cases hf : getElementById st i
  · simpa using countId_of_find?_none i st.head hf
  · simpa using countId_eraseP_self i st.head (h i)

theorem remove_countId_ne (st : SDState) (i j : String) (hne : i ≠ j) :
    countId i (removeStructuredData st j).head = countId i st.head := by
  unfold removeStructuredData
  cases hf : getElementById st j
  · simp
  · simpa using countId_eraseP_ne i j st.head hne

theorem clearSix_preserves_unique (st : SDState) (h : UniqueIds st.head) :
    UniqueIds (clearSix st).head := by
  unfold clearSix
  repeat apply remove_preserves_unique
  exact h

theorem clearSix_nextKey (st : SDState) : (clearSix st).nextKey = st.nextKey := by
  simp [clearSix, remove_nextKey]

theorem clearSix_countId (st : SDState) (h : UniqueIds st.head) (i : String)
    (hi : i ∈ sixIds) : countId i (clearSix st).head = 0 := by
  have u1 := remove_preserves_unique st "product-schema" h
  have u2 := remove_preserves_unique _ "breadcrumb-schema" u1
  have u3 := remove_preserves_unique _ "ecommerce-schema" u2
  have u4 := remove_preserves_unique _ "faq-schema" u3
  have u5 := remove_preserves_unique _ "category-schema" u4
  unfold clearSix
  rcases (by simpa [sixIds] using hi : i = "product-schema" ∨ i = "breadcrumb-schema" ∨
    i = "ecommerce-schema" ∨ i = "faq-schema" ∨ i = "category-schema" ∨
    i = "search-schema") with rfl | rfl | rfl | rfl | rfl | rfl
  · rw [remove_countId_ne _ _ _ (by decide), remove_countId_ne _ _ _ (by decide),
      remove_countId_ne _ _ _ (by decide), remove_countId_ne _ _ _ (by decide),
      remove_countId_ne _ _ _ (by decide)]
    exact remove_countId_self st _ h
  · rw [remove_countId_ne _ _ _ (by decide), remove_countId_ne _ _ _ (by decide),
      remove_countId_ne _ _ _ (by decide), remove_countId_ne _ _ _ (by decide)]
    exact remove_countId_self _ _ u1
  · rw [remove_countId_ne _ _ _ (by decide), remove_countId_ne _ _ _ (by decide),
      remove_countId_ne _ _ _ (by decide)]
    exact remove_countId_self _ _ u2
  · rw [remove_countId_ne _ _ _ (by decide), remove_countId_ne _ _ _ (by decide)]
    exact remove_countId_self _ _ u3
  · rw [remove_countId_ne _ _ _ (by decide)]
    exact remove_countId_self _ _ u4
  · exact remove_countId_self _ _ u5

/-- `t` extends `s`: every head element of `t` was already in `s` or was
created at or after `s`'s creation stamp. -/
def Extends (s t : SDState) : Prop :=
  s.nextKey ≤ t.nextKey ∧ ∀ e ∈ t.head, e ∈ s.head ∨ s.nextKey ≤ e.key

theorem extends_refl (s : SDState) : Extends s s := ⟨le_rfl, fun _ he => Or.inl he⟩

theorem extends_trans {a b c : SDState} (h1 : Extends a b) (h2 : Extends b c) :
    Extends a c := by
  refine ⟨le_trans h1.1 h2.1, fun e he => ?_⟩
  rcases h2.2 e he with hb | hk
  · exact h1.2 e hb
  · exact Or.inr (le_trans h1.1 hk)

theorem extends_add (st : SDState) (d : SchemaData) (oid : Option String) :
    Extends st (addStructuredData st d oid) := by
  constructor
  · simp [addStructuredData]
  · intro e he
    simp only [addStructuredData] at he
    rcases List.mem_append.mp he with h1 | h1
    · cases oid with
      | none => exact Or.inl h1
      | some i => exact Or.inl ((List.eraseP_sublist st.head).mem h1)
    · simp at h1
      subst h1
      exact Or.inr le_rfl

theorem extends_remove (st : SDState) (i : String) :
    Extends st (removeStructuredData st i) := by
  unfold removeStructuredData
  cases hf : getElementById st i
  · exact extends_refl st
  · exact ⟨le_rfl, fun e he => Or.inl ((List.eraseP_sublist st.head).mem (by simpa using he))⟩

theorem extends_clearSix (st : SDState) : Extends st (clearSix st) := by
  unfold clearSix
  exact extends_trans (extends_trans (extends_trans (extends_trans (extends_trans
    (extends_remove _ _) (extends_remove _ _)) (extends_remove _ _))
      (extends_remove _ _)) (extends_remove _ _)) (extends_remove _ _)

theorem extends_addBreadcrumb (bs : List Crumb) (st : SDState) :
    Extends st (addBreadcrumbSchema bs st) := by
  unfold addBreadcrumbSchema
  split
  · exact extends_refl st
  · exact extends_add st _ _

theorem extends_handleProductPage (d : PageData) (st : SDState) :
    Extends st (handleProductPage d st).1 := by
  unfold handleProductPage
  cases d.product with
  | some p => exact extends_add st _ _
  | none =>
    cases d.breadcrumbs with
    | some bs =>
      cases d.productFAQ with
      | some fs => exact extends_trans (extends_addBreadcrumb bs st) (extends_add _ _ _)
      | none => exact extends_addBreadcrumb bs st
    | none =>
      cases d.productFAQ with
      | some fs => exact extends_add st _ _
      | none => exact extends_refl st

theorem extends_handleCategoryPage (d : PageData) (st : SDState) :
    Extends st (handleCategoryPage d st).1 := by
  unfold handleCategoryPage
  cases d.category with
  | some c =>
    dsimp only
    exact extends_trans (extends_add st _ _) (extends_add _ _ _)
  | none =>
    cases d.breadcrumbs with
    | some bs =>
      cases d.products with
      | some ps =>
        dsimp only
        refine extends_trans (extends_trans
          (extends_add st .ecommerceSite (some "ecommerce-site-schema"))
          (extends_addBreadcrumb bs _)) ?_
        split
        · exact extends_add _ _ _
        · exact extends_refl _
      | none =>
        dsimp only
        exact extends_trans (extends_add st .ecommerceSite (some "ecommerce-site-schema"))
          (extends_addBreadcrumb bs _)
    | none =>
      cases d.products with
      | some ps =>
        dsimp only
        refine extends_trans (extends_add st .ecommerceSite (some "ecommerce-site-schema")) ?_
        split
        · exact extends_add _ _ _
        · exact extends_refl _
      | none =>
        dsimp only
        exact extends_add st _ _

theorem extends_handleHomePage (d : PageData) (st : SDState) :
    Extends st (handleHomePage d st).1 := by
  unfold handleHomePage
  have h1 : Extends st (addStructuredData (addStructuredData st .ecommerceSite
      (some "ecommerce-site-schema")) .faq (some "faq-schema")) :=
    extends_trans (extends_add _ _ _) (extends_add _ _ _)
  cases d.featuredProducts with
  | some ps =>
    cases d.offers with
    | some os => exact extends_trans (extends_trans h1 (extends_add _ _ _)) (extends_add _ _ _)
    | none => exact extends_trans h1 (extends_add _ _ _)
  | none =>
    cases d.offers with
    | some os => exact extends_trans h1 (extends_add _ _ _)
    | none => exact h1

theorem extends_handleSearchPage (d : PageData) (st : SDState) :
    Extends st (handleSearchPage d st).1 := by
  unfold handleSearchPage
  cases d.searchResults with
  | none => exact extends_refl st
  | some rs =>
    cases d.query with
    | none => exact extends_refl st
    | some q =>
      by_cases hq : q ≠ ""
      · simp only [if_pos hq]
        exact extends_add st _ _
      · simp only [if_neg hq]
        exact extends_refl st

theorem extends_handleCartPage (d : PageData) (st : SDState) :
    Extends st (handleCartPage d st).1 := by
  unfold handleCartPage
  cases d.cartItems with
  | some items => exact extends_add st _ _
  | none => exact extends_refl st

theorem extends_handleGenericPage (d : PageData) (st : SDState) :
    Extends st (handleGenericPage d st).1 := by
  unfold handleGenericPage
  split
  · exact extends_add st _ _
  · split
    · exact extends_add st _ _
    · exact extends_add st _ _

theorem update_sd (t : String) (d : PageData) (st : OrchState) :
    (updatePageSchemas t d st).1.sd =
      (if t = "product" then handleProductPage d (clearSix st.sd)
       else if t = "category" then handleCategoryPage d (clearSix st.sd)
       else if t = "home" then handleHomePage d (clearSix st.sd)
       else if t = "search" then handleSearchPage d (clearSix st.sd)
       else if t = "cart" then handleCartPage d (clearSix st.sd)
       else handleGenericPage d (clearSix st.sd)).1 := rfl

theorem extends_dispatch (t : String) (d : PageData) (st : OrchState) :
    Extends (clearSix st.sd) (updatePageSchemas t d st).1.sd := by
  rw [update_sd]
  split_ifs
  · exact extends_handleProductPage _ _
  · exact extends_handleCategoryPage _ _
  · exact extends_handleHomePage _ _
  · exact extends_handleSearchPage _ _
  · exact extends_handleCartPage _ _
  · exact extends_handleGenericPage _ _

theorem unique_addBreadcrumb (bs : List Crumb) (st : SDState) (h : UniqueIds st.head) :
    UniqueIds (addBreadcrumbSchema bs st).head := by
  unfold addBreadcrumbSchema
  split
  · exact h
  · exact add_preserves_unique _ _ _ h

theorem unique_handleProductPage (d : PageData) (st : SDState) (h : UniqueIds st.head) :
    UniqueIds (handleProductPage d st).1.head := by
  unfold handleProductPage
  cases d.product with
  | some p => exact add_preserves_unique _ _ _ h
  | none =>
    cases d.breadcrumbs with
    | some bs =>
      cases d.productFAQ with
      | some fs =>
        dsimp only
        exact add_preserves_unique _ _ _ (unique_addBreadcrumb bs st h)
      | none =>
        dsimp only
        exact unique_addBreadcrumb bs st h
    | none =>
      cases d.productFAQ with
      | some fs =>
        dsimp only
        exact add_preserves_unique _ _ _ h
      | none => exact h

theorem unique_handleCategoryPage (d : PageData) (st : SDState) (h : UniqueIds st.head) :
    UniqueIds (handleCategoryPage d st).1.head := by
  unfold handleCategoryPage
  have h0 := add_preserves_unique st .ecommerceSite (some "ecommerce-site-schema") h
  cases d.category with
  | some c =>
    dsimp only
    exact add_preserves_unique _ _ _ h0
  | none =>
    cases d.breadcrumbs with
    | some bs =>
      cases d.products with
      | some ps =>
        dsimp only
        split
        · exact add_preserves_unique _ _ _ (unique_addBreadcrumb bs _ h0)
        · exact unique_addBreadcrumb bs _ h0
      | none =>
        dsimp only
        exact unique_addBreadcrumb bs _ h0
    | none =>
      cases d.products with
      | some ps =>
        dsimp only
        split
        · exact add_preserves_unique _ _ _ h0
        · exact h0
      | none => exact h0

theorem unique_handleHomePage (d : PageData) (st : SDState) (h : UniqueIds st.head) :
    UniqueIds (handleHomePage d st).1.head := by
  unfold handleHomePage
  have h1 := add_preserves_unique _ .faq (some "faq-schema")
    (add_preserves_unique st .ecommerceSite (some "ecommerce-site-schema") h)
  cases d.featuredProducts with
  | some ps =>
    cases d.offers with
    | some os =>
      dsimp only
      exact add_preserves_unique _ _ _ (add_preserves_unique _ _ _ h1)
    | none =>
      dsimp only
      exact add_preserves_unique _ _ _ h1
  | none =>
    cases d.offers with
    | some os =>
      dsimp only
      exact add_preserves_unique _ _ _ h1
    | none => exact h1

theorem unique_handleSearchPage (d : PageData) (st : SDState) (h : UniqueIds st.head) :
    UniqueIds (handleSearchPage d st).1.head := by
  unfold handleSearchPage
  cases d.searchResults with
  | none => exact h
  | some rs =>
    cases d.query with
    | none => exact h
    | some q =>
      by_cases hq : q ≠ ""
      · simp only [if_pos hq]
        exact add_preserves_unique _ _ _ h
      · simp only [if_neg hq]
        exact h

theorem unique_handleCartPage (d : PageData) (st : SDState) (h : UniqueIds st.head) :
    UniqueIds (handleCartPage d st).1.head := by
  unfold handleCartPage
  cases d.cartItems with
  | some items => exact add_preserves_unique _ _ _ h
  | none => exact h

theorem unique_handleGenericPage (d : PageData) (st : SDState) (h : UniqueIds st.head) :
    UniqueIds (handleGenericPage d st).1.head := by
  unfold handleGenericPage
  split
  · exact add_preserves_unique _ _ _ h
  · split
    · exact add_preserves_unique _ _ _ h
    · exact add_preserves_unique _ _ _ h

theorem update_preserves_unique (t : String) (d : PageData) (st : OrchState)
    (h : UniqueIds st.sd.head) : UniqueIds (updatePageSchemas t d st).1.sd.head := by
  rw [update_sd]
  have hc := clearSix_preserves_unique st.sd h
  split_ifs
  · exact unique_handleProductPage _ _ hc
  · exact unique_handleCategoryPage _ _ hc
  · exact unique_handleHomePage _ _ hc
  · exact unique_handleSearchPage _ _ hc
  · exact unique_handleCartPage _ _ hc
  · exact unique_handleGenericPage _ _ hc

end Sunrise

namespace Sunrise

/-- C1 counterexample: starting from the empty head, `updatePageSchemas
('home', {})` registers a tag under `ecommerce-site-schema` (key 0), and a
subsequent `updatePageSchemas('product', {})` with a different page type
leaves that first-page tag registered — supersession does not cover ids
outside the six fixed ones (`ecommerce-site-schema` is not among them,
while the removed id `ecommerce-schema` is never registered by anyone). -/
theorem updatePageSchemas_not_full_supersession :
    "product" ≠ "home" ∧
    initOrch.sd.head = [] ∧
    ((updatePageSchemas "home" {} initOrch).1).sd.nextKey = 2 ∧
    (⟨0, some "ecommerce-site-schema", SchemaData.ecommerceSite⟩ : Elem) ∈
      ((updatePageSchemas "product" {} (updatePageSchemas "home" {} initOrch).1).1).sd.head ∧
    "ecommerce-site-schema" ∉ sixIds := by
  refine ⟨by decide, rfl, by decide, by decide, by decide⟩

/-- C1 amended: across two successive `updatePageSchemas` calls from the
initial state, the second call removes every tag carrying one of the six
fixed ids before its handler runs, so any tag with one of those six ids
present after the second call was created by the second call's handler
(its key is at least the first call's final creation stamp); tags the
first call registered under other ids are not covered by this clearing. -/
theorem updatePageSchemas_six_id_supersession (t1 t2 : String) (d1 d2 : PageData)
    (e : Elem) (i : String)
    (hmem : e ∈ ((updatePageSchemas t2 d2 (updatePageSchemas t1 d1 initOrch).1).1).sd.head)
    (hid : e.id = some i) (hsix : i ∈ sixIds) :
    ((updatePageSchemas t1 d1 initOrch).1).sd.nextKey ≤ e.key := by
  have hu0 : UniqueIds initOrch.sd.head := fun j => by simp [initOrch, initSD, countId]
  have hu1 : UniqueIds ((updatePageSchemas t1 d1 initOrch).1).sd.head :=
    update_preserves_unique t1 d1 initOrch hu0
  have hext := extends_dispatch t2 d2 (updatePageSchemas t1 d1 initOrch).1
  rcases hext.2 e hmem with hin | hk
  · exfalso
    have hz := clearSix_countId _ hu1 i hsix
    exact countId_eq_zero_not_mem i _ e hz hin (by simp [isId, hid])
  · rwa [clearSix_nextKey] at hk

theorem updatePageSchemas_six_id_supersession_witness :
    (⟨3, some "faq-schema", SchemaData.faq⟩ : Elem) ∈
      ((updatePageSchemas "home" {} (updatePageSchemas "home" {} initOrch).1).1).sd.head ∧
    ((updatePageSchemas "home" {} initOrch).1).sd.nextKey ≤ 3 := by
  refine ⟨by decide, ?_⟩
  exact updatePageSchemas_six_id_supersession "home" "home" {} {}
    ⟨3, some "faq-schema", SchemaData.faq⟩ "faq-schema" (by decide) rfl (by decide)

end Sunrise

namespace Sunrise

/-- Two `addStructuredData` calls with the same id `x` from the empty
registry. -/
def st4 : SDState :=
  addStructuredData (addStructuredData initSD (.raw "d1") (some "x")) (.raw "d2") (some "x")

/-- C4 counterexample: after `add(d1,'x'); add(d2,'x')` the registry's
tracked array holds *two* elements with id `x` — the replaced DOM node is
never pruned from the tracked array — so the tracked set does not contain
exactly one element with id `x`. -/
theorem addStructuredData_tracked_duplicate :
    st4.tracked = [⟨0, some "x", .raw "d1"⟩, ⟨1, some "x", .raw "d2"⟩] ∧
    (st4.tracked.filter (isId "x")).length = 2 ∧
    (st4.tracked.filter (isId "x")).length ≠ 1 := by
  refine ⟨by decide, by decide, by decide⟩

/-- C4 amended: if the head holds at most one element with id `x`, then
after `add(d1,'x'); add(d2,'x')` the *document head* holds exactly one
element with id `x` and it carries `d2`'s content; the tracked array
instead grows by both elements (the stale `d1` one included). -/
theorem addStructuredData_replace_semantics (st : SDState) (d1 d2 : SchemaData) (x : String)
    (h : countId x st.head ≤ 1) :
    countId x (addStructuredData (addStructuredData st d1 (some x)) d2 (some x)).head = 1 ∧
    (∀ e ∈ (addStructuredData (addStructuredData st d1 (some x)) d2 (some x)).head,
      e.id = some x → e.content = d2) ∧
    ((addStructuredData (addStructuredData st d1 (some x)) d2 (some x)).tracked.filter
      (isId x)).length = (st.tracked.filter (isId x)).length + 2 := by
  have h1 : countId x (addStructuredData st d1 (some x)).head = 1 := add_countId_self st d1 x h
  refine ⟨add_countId_self _ d2 x (le_of_eq h1), ?_, ?_⟩
  · intro e he hid
    rcases List.mem_append.mp he with h1m | h1m
    · exfalso
      have hz : countId x ((addStructuredData st d1 (some x)).head.eraseP (isId x)) = 0 :=
        countId_eraseP_self x _ (le_of_eq h1)
      exact countId_eq_zero_not_mem x _ e hz h1m (by simp [isId, hid])
    · simp at h1m
      subst h1m
      rfl
  · simp [addStructuredData, List.filter_append, isId]

theorem addStructuredData_replace_semantics_witness :
    countId "x" st4.head = 1 ∧
    (st4.tracked.filter (isId "x")).length = 0 + 2 := by
  have h := addStructuredData_replace_semantics initSD (.raw "d1") (.raw "d2") "x" (by decide)
  exact ⟨h.1, h.2.2⟩

end Sunrise

namespace Sunrise

/-! ## SEO Tag Builder (`useSEO.js`).

A meta tag is matched either by its `name=` or its `property=` attribute
(`setMetaTag`), or is the canonical `<link>` (`setCanonicalUrl`).
`window.location.href` is threaded as the explicit parameter `href`. -/

inductive MetaKey where
  | name (n : String)
  | prop (p : String)
  | canonical
deriving DecidableEq

structure MetaTag where
  key : MetaKey
  content : String
deriving DecidableEq

structure SEOState where
  docTitle : Option String := none
  head : List MetaTag := []
deriving DecidableEq

def initSEO : SEOState := {}

def isK (k : MetaKey) (t : MetaTag) : Bool := t.key == k

/-- `setMetaTag(name, content, property)`: no-op on falsy content,
otherwise replace the first element matching the selector and append. -/
def setMetaTag (st : SEOState) (k : MetaKey) (content : Option String) : SEOState :=
  match content with
  | none => st
  | some c =>
    if c = "" then st
    else { st with head := (st.head.eraseP (isK k)) ++ [⟨k, c⟩] }

/-- `setTitle(title)`: sets `document.title` when truthy. -/
def setTitle (st : SEOState) (title : Option String) : SEOState :=
  if truthyStr title then { st with docTitle := title } else st

/-- `setCanonicalUrl(url)`: replace the canonical link; falsy url falls
back to `window.location.href`. -/
def setCanonicalUrl (st : SEOState) (url : Option String) (href : String) : SEOState :=
  { st with head := (st.head.eraseP (isK .canonical)) ++
      [⟨.canonical, if truthyStr url then url.getD "" else href⟩] }

/-- `keywords` may be an array (joined with `', '`) or a plain string. -/
inductive KW where
  | arr (l : List String)
  | str (s : String)
deriving DecidableEq

def joinKW : KW → String
  | .arr l => String.intercalate ", " l
  | .str s => s

def truthyKW : Option KW → Bool
  | some (.arr _) => true
  | some (.str s) => s ≠ ""
  | none => false

structure SEOArgs where
  title : Option String := none
  description : Option String := none
  keywords : Option KW := none
  image : Option String := none
  url : Option String := none
deriving DecidableEq

/-- `setBasicSEO` (`useSEO.js` 55-83). -/
def setBasicSEO (args : SEOArgs) (href : String) (st : SEOState) : SEOState :=
  let st1 :=
    if truthyStr args.title then
      setMetaTag (setTitle st args.title) (.name "title") args.title
    else st
  let st2 :=
    if truthyStr args.description then setMetaTag st1 (.name "description") args.description
    else st1
  let st3 :=
    if truthyKW args.keywords then
      setMetaTag st2 (.name "keywords") (some (joinKW (args.keywords.getD (.arr []))))
    else st2
  let st4 := if truthyStr args.url then setCanonicalUrl st3 args.url href else st3
  let st5 :=
    if truthyStr args.image then setMetaTag st4 (.prop "og:image") args.image else st4
  let st6 := setMetaTag st5 (.name "robots")
    (some "index, follow, max-image-preview:large, max-snippet:-1, max-video-preview:-1")
  let st7 := setMetaTag st6 (.name "googlebot") (some "index, follow")
  let st8 := setMetaTag st7 (.name "bingbot") (some "index, follow")
  let st9 := setMetaTag st8 (.name "slurp") (some "index, follow")
  setMetaTag st9 (.name "duckduckbot") (some "index, follow")

/-- `setCheckoutSEO` (`useSEO.js` 209-222): basic SEO, then the deliberate
`noindex, nofollow` robots override for the checkout page. -/
def setCheckoutSEO (href : String) (st : SEOState) : SEOState :=
  let st1 := setBasicSEO
    { title := some "Checkout - Sunrise Fashion",
      description := some "Complete your purchase securely at Sunrise Fashion. Fast checkout with multiple payment options.",
      url := some href } href st
  let st2 := setMetaTag st1 (.name "robots") (some "noindex, nofollow")
  setMetaTag st2 (.name "page-type") (some "checkout")

/-- First meta tag matching the selector, as `document.querySelector`. -/
def getMeta (st : SEOState) (k : MetaKey) : Option String :=
  (st.head.find? (isK k)).map (·.content)

/-- Number of head tags matching selector `k`. -/
def countK (k : MetaKey) (l : List MetaTag) : Nat := (l.filter (isK k)).length

def UniqueKeys (l : List MetaTag) : Prop := ∀ k, countK k l ≤ 1

theorem countK_cons (k : MetaKey) (t : MetaTag) (l : List MetaTag) :
    countK k (t :: l) = (if isK k t then 1 else 0) + countK k l := by
  by_cases h : isK k t
  · simp [countK, List.filter_cons, h]
    omega
  · simp [countK, List.filter_cons, h]

theorem countK_append (k : MetaKey) (l r : List MetaTag) :
    countK k (l ++ r) = countK k l + countK k r := by
  simp [countK, List.filter_append]

theorem isK_ne_of_isK (k k' : MetaKey) (t : MetaTag) (hne : k ≠ k') (h : isK k' t) :
    isK k t = false := by
  simp [isK] at h ⊢
  simp [h]
  exact fun hc => hne hc.symm

theorem countK_eraseP_le (k k' : MetaKey) (l : List MetaTag) :
    countK k (l.eraseP (isK k')) ≤ countK k l := by
  induction l with
  | nil => simp [countK]
  | cons t ts ih =>
    by_cases h : isK k' t
    · simp only [List.eraseP_cons, h, cond_true, countK_cons]
      omega
    · simp only [List.eraseP_cons, h, cond_false, countK_cons]
      omega

theorem countK_eraseP_ne (k k' : MetaKey) (l : List MetaTag) (hne : k ≠ k') :
    countK k (l.eraseP (isK k')) = countK k l := by
  induction l with
  | nil => simp
  | cons t ts ih =>
    by_cases h : isK k' t
    · simp only [List.eraseP_cons, h, cond_true, countK_cons, isK_ne_of_isK k k' t hne h]
      simp
    · simp only [List.eraseP_cons, h, cond_false, countK_cons, ih]

theorem countK_eraseP_self (k : MetaKey) (l : List MetaTag) (h : countK k l ≤ 1) :
    countK k (l.eraseP (isK k)) = 0 := by
  induction l with
  | nil => simp [countK]
  | cons t ts ih =>
    by_cases ht : isK k t
    · simp only [List.eraseP_cons, ht, cond_true]
      rw [countK_cons, ht] at h
      simp at h
      omega
    · rw [countK_cons, if_neg ht] at h
      have ht' : isK k t = false := by simpa using ht
      simp only [List.eraseP_cons, ht', cond_false, countK_cons, if_neg ht]
      simp [ih (by omega)]

theorem find?_of_countK_zero (k : MetaKey) (l : List MetaTag) (h : countK k l = 0) :
    l.find? (isK k) = none := by
  refine List.find?_eq_none.mpr fun x hx => ?_
  intro hp
  have : x ∈ l.filter (isK k) := List.mem_filter.mpr ⟨hx, hp⟩
  rw [List.eq_nil_of_length_eq_zero h] at this
  exact absurd this (List.not_mem_nil x)

theorem find?_eraseP_ne_meta (k k' : MetaKey) (l : List MetaTag) (hne : k ≠ k') :
    (l.eraseP (isK k')).find? (isK k) = l.find? (isK k) := by
  induction l with
  | nil => simp
  | cons t ts ih =>
    by_cases h : isK k' t
    · simp only [List.eraseP_cons, h, cond_true]
      rw [List.find?_cons_of_neg _ (by simp [isK_ne_of_isK k k' t hne h])]
    · simp only [List.eraseP_cons, h, cond_false]
      by_cases hk : isK k t
      · rw [List.find?_cons_of_pos _ hk, List.find?_cons_of_pos _ hk]
      · rw [List.find?_cons_of_neg _ hk, List.find?_cons_of_neg _ hk, ih]

theorem setMetaTag_preserves_unique (st : SEOState) (k : MetaKey) (c : Option String)
    (h : UniqueKeys st.head) : UniqueKeys (setMetaTag st k c).head := by
  match c with
  | none => exact h
  | some s =>
    by_cases hs : s = ""
    · have hred : setMetaTag st k (some s) = st := by
        unfold setMetaTag
        simp [hs]
      rw [hred]
      exact h
    · have hred : setMetaTag st k (some s) =
          { st with head := (st.head.eraseP (isK k)) ++ [⟨k, s⟩] } := by
        unfold setMetaTag
        simp [hs]
      rw [hred]
      intro k'
      show countK k' ((st.head.eraseP (isK k)) ++ [⟨k, s⟩]) ≤ 1
      by_cases hk : k' = k
      · subst hk
        simp only [countK_append, countK_eraseP_self k' st.head (h k')]
        simp [countK_cons, countK, isK]
      · simp only [countK_append, countK_eraseP_ne k' k st.head hk]
        have : isK k' (⟨k, s⟩ : MetaTag) = false := by
          simp [isK]
          exact fun hc => hk hc.symm
        simp only [countK_cons, this, if_neg (by simp [this] : ¬ isK k' (⟨k, s⟩ : MetaTag) = true)]
        simpa [countK] using h k'

theorem setTitle_head (st : SEOState) (t : Option String) :
    (setTitle st t).head = st.head := by
  unfold setTitle
  split <;> rfl

theorem setCanonicalUrl_preserves_unique (st : SEOState) (url : Option String) (href : String)
    (h : UniqueKeys st.head) : UniqueKeys (setCanonicalUrl st url href).head := by
  intro k'
  unfold setCanonicalUrl
  by_cases hk : k' = MetaKey.canonical
  · subst hk
    simp only [countK_append, countK_eraseP_self _ st.head (h _)]
    simp [countK_cons, countK, isK]
  · simp only [countK_append, countK_eraseP_ne k' _ st.head hk]
    have : isK k' (⟨.canonical, if truthyStr url then url.getD "" else href⟩ : MetaTag) = false := by
      simp [isK]
      exact fun hc => hk hc.symm
    simp only [countK_cons, this, if_neg (by simp [this] :
      ¬ isK k' (⟨.canonical, if truthyStr url then url.getD "" else href⟩ : MetaTag) = true)]
    simpa [countK] using h k'

theorem getMeta_set_self (st : SEOState) (k : MetaKey) (c : String)
    (h : countK k st.head ≤ 1) (hc : c ≠ "") :
    getMeta (setMetaTag st k (some c)) k = some c := by
  have hred : setMetaTag st k (some c) =
      { st with head := (st.head.eraseP (isK k)) ++ [⟨k, c⟩] } := by
    unfold setMetaTag
    simp [hc]
  rw [hred]
  unfold getMeta
  dsimp only
  simp only [List.find?_append, find?_of_countK_zero k _ (countK_eraseP_self k st.head h)]
  simp [isK]

theorem getMeta_set_ne (st : SEOState) (k k' : MetaKey) (c : Option String) (hne : k ≠ k') :
    getMeta (setMetaTag st k' c) k = getMeta st k := by
  match c with
  | none => rfl
  | some s =>
    by_cases hs : s = ""
    · have hred : setMetaTag st k' (some s) = st := by
        unfold setMetaTag
        simp [hs]
      rw [hred]
    · have hred : setMetaTag st k' (some s) =
          { st with head := (st.head.eraseP (isK k')) ++ [⟨k', s⟩] } := by
        unfold setMetaTag
        simp [hs]
      rw [hred]
      unfold getMeta
      dsimp only
      simp only [List.find?_append, find?_eraseP_ne_meta k k' st.head hne]
      have hf : isK k (⟨k', s⟩ : MetaTag) = false := by
        simp [isK]
        exact fun hc => hne hc.symm
      simp [hf]

theorem getMeta_setTitle (st : SEOState) (t : Option String) (k : MetaKey) :
    getMeta (setTitle st t) k = getMeta st k := by
  unfold getMeta
  rw [setTitle_head]

theorem getMeta_canonical_ne (st : SEOState) (url : Option String) (href : String)
    (k : MetaKey) (hne : k ≠ .canonical) :
    getMeta (setCanonicalUrl st url href) k = getMeta st k := by
  unfold setCanonicalUrl getMeta
  dsimp only
  simp only [List.find?_append, find?_eraseP_ne_meta k _ st.head hne]
  have hf : isK k (⟨.canonical, if truthyStr url then url.getD "" else href⟩ : MetaTag) = false := by
    simp [isK]
    exact fun hc => hne hc.symm
  simp [hf]

/-- The state reached by `setBasicSEO` just before it asserts the five
crawler directives (its title/description/keywords/url/image steps). -/
def preCrawlerSEO (args : SEOArgs) (href : String) (st : SEOState) : SEOState :=
  let st1 :=
    if truthyStr args.title then
      setMetaTag (setTitle st args.title) (.name "title") args.title
    else st
  let st2 :=
    if truthyStr args.description then setMetaTag st1 (.name "description") args.description
    else st1
  let st3 :=
    if truthyKW args.keywords then
      setMetaTag st2 (.name "keywords") (some (joinKW (args.keywords.getD (.arr []))))
    else st2
  let st4 := if truthyStr args.url then setCanonicalUrl st3 args.url href else st3
  if truthyStr args.image then setMetaTag st4 (.prop "og:image") args.image else st4

theorem setBasicSEO_eq (args : SEOArgs) (href : String) (st : SEOState) :
    setBasicSEO args href st =
      setMetaTag (setMetaTag (setMetaTag (setMetaTag (setMetaTag (preCrawlerSEO args href st)
        (.name "robots")
        (some "index, follow, max-image-preview:large, max-snippet:-1, max-video-preview:-1"))
        (.name "googlebot") (some "index, follow"))
        (.name "bingbot") (some "index, follow"))
        (.name "slurp") (some "index, follow"))
        (.name "duckduckbot") (some "index, follow") := rfl

theorem preCrawler_preserves_unique (args : SEOArgs) (href : String) (st : SEOState)
    (h : UniqueKeys st.head) : UniqueKeys (preCrawlerSEO args href st).head := by
  unfold preCrawlerSEO
  dsimp only
  repeat' first
    | exact h
    | apply setMetaTag_preserves_unique
    | apply setCanonicalUrl_preserves_unique
    | (rw [setTitle_head])
    | split

theorem setBasicSEO_preserves_unique (args : SEOArgs) (href : String) (st : SEOState)
    (h : UniqueKeys st.head) : UniqueKeys (setBasicSEO args href st).head := by
  rw [setBasicSEO_eq]
  apply setMetaTag_preserves_unique
  apply setMetaTag_preserves_unique
  apply setMetaTag_preserves_unique
  apply setMetaTag_preserves_unique
  apply setMetaTag_preserves_unique
  exact preCrawler_preserves_unique args href st h

end Sunrise

namespace Sunrise

/-- C8 counterexample: on a basic-SEO call the `robots` directive is
asserted with content
`'index, follow, max-image-preview:large, max-snippet:-1, max-video-preview:-1'`,
which is not the string `'index, follow'` the claim states. -/
theorem setBasicSEO_robots_content_counterexample :
    getMeta (setBasicSEO {} "" initSEO) (.name "robots") =
      some "index, follow, max-image-preview:large, max-snippet:-1, max-video-preview:-1" ∧
    getMeta (setBasicSEO {} "" initSEO) (.name "robots") ≠ some "index, follow" ∧
    getMeta (setBasicSEO {} "" initSEO) (.name "googlebot") = some "index, follow" := by
  refine ⟨by decide, by decide, by decide⟩

/-- C8 amended: every basic-SEO call asserts the fixed crawler directives:
`robots` with `'index, follow, max-image-preview:large, max-snippet:-1,
max-video-preview:-1'` and `googlebot`, `bingbot`, `slurp`, `duckduckbot`
with exactly `'index, follow'`; the checkout-page SEO call instead leaves
`robots` asserting `'noindex, nofollow'` (a deliberate override applied
after its basic-SEO call, the other crawler tags keeping `'index, follow'`). -/
theorem seo_crawler_policy (args : SEOArgs) (href : String) (st : SEOState)
    (h : UniqueKeys st.head) :
    getMeta (setBasicSEO args href st) (.name "robots") =
      some "index, follow, max-image-preview:large, max-snippet:-1, max-video-preview:-1" ∧
    getMeta (setBasicSEO args href st) (.name "googlebot") = some "index, follow" ∧
    getMeta (setBasicSEO args href st) (.name "bingbot") = some "index, follow" ∧
    getMeta (setBasicSEO args href st) (.name "slurp") = some "index, follow" ∧
    getMeta (setBasicSEO args href st) (.name "duckduckbot") = some "index, follow" ∧
    getMeta (setCheckoutSEO href st) (.name "robots") = some "noindex, nofollow" ∧
    getMeta (setCheckoutSEO href st) (.name "googlebot") = some "index, follow" := by
  have h5 := preCrawler_preserves_unique args href st h
  have h6 := setMetaTag_preserves_unique (preCrawlerSEO args href st) (.name "robots")
    (some "index, follow, max-image-preview:large, max-snippet:-1, max-video-preview:-1") h5
  have h7 := setMetaTag_preserves_unique _ (.name "googlebot") (some "index, follow") h6
  have h8 := setMetaTag_preserves_unique _ (.name "bingbot") (some "index, follow") h7
  have h9 := setMetaTag_preserves_unique _ (.name "slurp") (some "index, follow") h8
  have hbasic :
      getMeta (setBasicSEO args href st) (.name "googlebot") = some "index, follow" := by
    rw [setBasicSEO_eq]
    rw [getMeta_set_ne _ _ _ _ (by decide), getMeta_set_ne _ _ _ _ (by decide),
      getMeta_set_ne _ _ _ _ (by decide)]
    exact getMeta_set_self _ _ _ (h6 _) (by decide)
  refine ⟨?_, hbasic, ?_, ?_, ?_, ?_, ?_⟩
  · rw [setBasicSEO_eq]
    rw [getMeta_set_ne _ _ _ _ (by decide), getMeta_set_ne _ _ _ _ (by decide),
      getMeta_set_ne _ _ _ _ (by decide), getMeta_set_ne _ _ _ _ (by decide)]
    exact getMeta_set_self _ _ _ (h5 _) (by decide)
  · rw [setBasicSEO_eq]
    rw [getMeta_set_ne _ _ _ _ (by decide), getMeta_set_ne _ _ _ _ (by decide)]
    exact getMeta_set_self _ _ _ (h7 _) (by decide)
  · rw [setBasicSEO_eq]
    rw [getMeta_set_ne _ _ _ _ (by decide)]
    exact getMeta_set_self _ _ _ (h8 _) (by decide)
  · rw [setBasicSEO_eq]
    exact getMeta_set_self _ _ _ (h9 _) (by decide)
  · show getMeta (setMetaTag (setMetaTag _ (.name "robots") (some "noindex, nofollow"))
      (.name "page-type") (some "checkout")) (.name "robots") = some "noindex, nofollow"
    rw [getMeta_set_ne _ _ _ _ (by decide)]
    exact getMeta_set_self _ _ _ (setBasicSEO_preserves_unique _ href st h _) (by decide)
  · show getMeta (setMetaTag (setMetaTag _ (.name "robots") (some "noindex, nofollow"))
      (.name "page-type") (some "checkout")) (.name "googlebot") = some "index, follow"
    rw [getMeta_set_ne _ _ _ _ (by decide), getMeta_set_ne _ _ _ _ (by decide)]
    have h5c := preCrawler_preserves_unique
      { title := some "Checkout - Sunrise Fashion",
        description := some "Complete your purchase securely at Sunrise Fashion. Fast checkout with multiple payment options.",
        url := some href } href st h
    have h6c := setMetaTag_preserves_unique _ (.name "robots")
      (some "index, follow, max-image-preview:large, max-snippet:-1, max-video-preview:-1") h5c
    rw [setBasicSEO_eq]
    rw [getMeta_set_ne _ _ _ _ (by decide), getMeta_set_ne _ _ _ _ (by decide),
      getMeta_set_ne _ _ _ _ (by decide)]
    exact getMeta_set_self _ _ _ (h6c _) (by decide)

theorem seo_crawler_policy_witness :
    getMeta (setBasicSEO {} "h" initSEO) (.name "robots") =
      some "index, follow, max-image-preview:large, max-snippet:-1, max-video-preview:-1" ∧
    getMeta (setBasicSEO {} "h" initSEO) (.name "bingbot") = some "index, follow" ∧
    getMeta (setCheckoutSEO "h" initSEO) (.name "robots") = some "noindex, nofollow" := by
  have h := seo_crawler_policy {} "h" initSEO (fun k => by simp [initSEO, countK])
  exact ⟨h.1, h.2.2.1, h.2.2.2.2.2.1⟩

end Sunrise

namespace Sunrise

/-! ## Mock MCP server (`mcpServer.js`).

Tool/resource/prompt payloads are abstracted to tagged records carrying
the fields the contract fixes; the server state is the three dispatch
tables, populated once in `init()` and never written afterwards. -/

structure ToolArgs where
  query : Option String := none
  category : Option String := none
  limit : Option Int := none
  productId : Option String := none
  quantity : Option Int := none
  variantId : Option String := none
deriving DecidableEq

structure MoneyRec where
  centAmount : Int
  currencyCode : String
deriving DecidableEq

/-- The mock cart record returned by `getCart` (lines 496-512). -/
structure CartRec where
  id : String
  items : List String
  totalPrice : MoneyRec
  itemCount : Int
deriving DecidableEq

def mockCart : CartRec := ⟨"cart-123", [], ⟨0, "EUR"⟩, 0⟩

/-- The result object of `addToCart` (lines 514-531). -/
structure AddToCartRec where
  success : Bool
  message : String
  productId : String
  quantity : Int
  variantId : Option String
deriving DecidableEq

/-- JSON payload inside `content[0].text`, abstracted per tool. -/
inductive ContentVal where
  | searchRes (query : String) (total : Int)
  | productRes (productId : String)
  | categoriesRes
  | cartRes (c : CartRec)
  | addToCartRes (r : AddToCartRec)
  | userRes
  | navigationRes
deriving DecidableEq

structure ToolResponse where
  content : ContentVal
  isError : Bool := false
deriving DecidableEq

/-- Server state: the three dispatch-table key sets. -/
structure MCPState where
  tools : List String
  resources : List String
  prompts : List String
deriving DecidableEq

def initMCP : MCPState :=
  { tools := ["search_products", "get_product", "get_categories", "get_cart",
      "add_to_cart", "get_user_info", "get_navigation"],
    resources := ["site_config", "product_catalog", "user_session",
      "shopping_cart", "site_analytics"],
    prompts := ["recommend_products", "style_advice", "size_guide", "shopping_assistance"] }

def searchProducts (a : ToolArgs) : ToolResponse := ⟨.searchRes (a.query.getD "") 1, false⟩

def getProduct (a : ToolArgs) : ToolResponse := ⟨.productRes (a.productId.getD ""), false⟩

def getCategories (_ : ToolArgs) : ToolResponse := ⟨.categoriesRes, false⟩

/-- `getCart`: always the same fixed mock cart; it reads no state. -/
def getCart (_ : ToolArgs) : ToolResponse := ⟨.cartRes mockCart, false⟩

/-- `addToCart`: always reports success; it writes no state. -/
def addToCart (a : ToolArgs) : ToolResponse :=
  let q := a.quantity.getD 1
  ⟨.addToCartRes ⟨true, "Added " ++ toString q ++ " item(s) to cart",
    a.productId.getD "", q, a.variantId⟩, false⟩

def getUserInfo (_ : ToolArgs) : ToolResponse := ⟨.userRes, false⟩

def getNavigation (_ : ToolArgs) : ToolResponse := ⟨.navigationRes, false⟩

/-- `callTool` (lines 287-323): the unknown-tool throw sits *before* the
`try`, so it escapes `callTool` (modelled by `Except.error`); the known
tools dispatch inside the `try` and their pure mock bodies never throw. -/
def callTool (st : MCPState) (name : String) (args : ToolArgs) : Except String ToolResponse :=
  if name ∈ st.tools then
    .ok (if name = "search_products" then searchProducts args
      else if name = "get_product" then getProduct args
      else if name = "get_categories" then getCategories args
      else if name = "get_cart" then getCart args
      else if name = "add_to_cart" then addToCart args
      else if name = "get_user_info" then getUserInfo args
      else getNavigation args)
  else .error ("Tool " ++ name ++ " not found")

/-- JS `uri.replace('sunrise://', '')`: drop the first occurrence. -/
def replaceFirstSub (pat : List Char) : List Char → List Char
  | [] => []
  | c :: cs =>
    if pat.isPrefixOf (c :: cs) then (c :: cs).drop pat.length
    else c :: replaceFirstSub pat cs

/-- `resourceKey = uri.replace('sunrise://', '').replace(/\x2f/g, '_')` -/
def resourceKey (uri : String) : String :=
  ⟨(replaceFirstSub "sunrise://".data uri.data).map fun c => if c = '/' then '_' else c⟩

inductive ResourceContent where
  | siteConfig
  | productCatalog
  | userSession
  | currentCart
  | analyticsSummary
deriving DecidableEq

/-- `readResource` (lines 331-373): look the computed key up in the
resources table (whose registered keys are `site_config`-style, so the
`config_site`-style keys the switch expects are never found there), then
switch on the key; an unmatched key throws, re-wrapped by the catch. -/
def readResource (st : MCPState) (uri : String) : Except String ResourceContent :=
  let key := resourceKey uri
  if key ∈ st.resources then
    if key = "config_site" then .ok .siteConfig
    else if key = "catalog_products" then .ok .productCatalog
    else if key = "session_user" then .ok .userSession
    else if key = "cart_current" then .ok .currentCart
    else if key = "analytics_summary" then .ok .analyticsSummary
    else .error ("Error reading resource " ++ uri ++ ": Resource " ++ key ++ " not implemented")
  else .error ("Resource " ++ uri ++ " not found")

def getPrompt (st : MCPState) (name : String) : Except String String :=
  if name ∈ st.prompts then .ok name
  else .error ("Prompt " ++ name ++ " not found")

structure MCPBody where
  name : String := ""
  args : ToolArgs := {}
  uri : String := ""
deriving DecidableEq

inductive MCPValue where
  | initRes
  | toolsListRes (names : List String)
  | toolRes (r : ToolResponse)
  | resourcesListRes (keys : List String)
  | resourceRes (c : ResourceContent) (uri : String)
  | promptsListRes (names : List String)
  | promptRes (t : String)
deriving DecidableEq

/-- A handler response is either a result or an `{ error: { code,
message } }` payload — never a thrown exception. -/
inductive MCPResponse where
  | ok (v : MCPValue)
  | err (code : Int) (message : String)
deriving DecidableEq

/-- `MCPHttpHandler.handleRequest` (lines 696-724): dispatch on the path;
any error thrown below is caught and returned as an error payload. -/
def handleRequest (st : MCPState) (path : String) (body : MCPBody) : MCPResponse :=
  if path = "/mcp/initialize" then .ok .initRes
  else if path = "/mcp/tools/list" then .ok (.toolsListRes st.tools)
  else if path = "/mcp/tools/call" then
    match callTool st body.name body.args with
    | .ok r => .ok (.toolRes r)
    | .error m => .err (-1) m
  else if path = "/mcp/resources/list" then .ok (.resourcesListRes st.resources)
  else if path = "/mcp/resources/read" then
    match readResource st body.uri with
    | .ok c => .ok (.resourceRes c body.uri)
    | .error m => .err (-1) m
  else if path = "/mcp/prompts/list" then .ok (.promptsListRes st.prompts)
  else if path = "/mcp/prompts/get" then
    match getPrompt st body.name with
    | .ok t => .ok (.promptRes t)
    | .error m => .err (-1) m
  else .err (-1) ("Unknown MCP endpoint: " ++ path)

/-- Processing one request: a response plus the unchanged server state —
no handler in `mcpServer.js` writes `this.tools`/`this.resources`/
`this.prompts` after `init()`. -/
def mcpProcess (st : MCPState) (req : String × MCPBody) : MCPResponse × MCPState :=
  (handleRequest st req.1 req.2, st)

def runRequests (st : MCPState) (reqs : List (String × MCPBody)) : MCPState :=
  reqs.foldl (fun s r => (mcpProcess s r).2) st

/-- The five registered resource uris of the lookup table. -/
def resourceUris : List String :=
  ["sunrise://config/site", "sunrise://catalog/products", "sunrise://session/user",
   "sunrise://cart/current", "sunrise://analytics/summary"]

theorem readResource_always_error (uri : String) :
    ∃ m, readResource initMCP uri = .error m := by
  by_cases hk : resourceKey uri ∈ initMCP.resources
  · refine ⟨"Error reading resource " ++ uri ++ ": Resource " ++ resourceKey uri ++
      " not implemented", ?_⟩
    rcases (by simpa [initMCP] using hk :
      resourceKey uri = "site_config" ∨ resourceKey uri = "product_catalog" ∨
      resourceKey uri = "user_session" ∨ resourceKey uri = "shopping_cart" ∨
      resourceKey uri = "site_analytics") with h1 | h1 | h1 | h1 | h1 <;>
      simp [readResource, hk, h1, initMCP]
  · exact ⟨"Resource " ++ uri ++ " not found", by simp [readResource, hk]⟩

theorem runRequests_id (reqs : List (String × MCPBody)) (st : MCPState) :
    runRequests st reqs = st := by
  induction reqs with
  | nil => rfl
  | cons r rs ih => exact ih

end Sunrise

namespace Sunrise

/-- C9: a `tools/call` with a name outside the seven-tool table and a
`resources/read` with a uri outside the five-entry table both come back
through the MCP HTTP handler as explicit `{ error: { code, message } }`
payloads; `handleRequest` is a total function into the response type, so
no exception crosses the request boundary. -/
theorem mcp_unknown_error_payload (name : String) (args : ToolArgs) (uri : String)
    (hn : name ∉ initMCP.tools) (_hu : uri ∉ resourceUris) :
    handleRequest initMCP "/mcp/tools/call" { name := name, args := args } =
      .err (-1) ("Tool " ++ name ++ " not found") ∧
    (∃ m, handleRequest initMCP "/mcp/resources/read" { uri := uri } = .err (-1) m) := by
  constructor
  · simp [handleRequest, callTool, hn]
  · obtain ⟨m, hm⟩ := readResource_always_error uri
    exact ⟨m, by simp [handleRequest, hm]⟩

theorem mcp_unknown_error_payload_witness :
    handleRequest initMCP "/mcp/tools/call" { name := "delete_everything" } =
      .err (-1) "Tool delete_everything not found" ∧
    (∃ m, handleRequest initMCP "/mcp/resources/read" { uri := "sunrise://nope/nope" } =
      .err (-1) m) := by
  have h := mcp_unknown_error_payload "delete_everything" {} "sunrise://nope/nope"
    (by decide) (by decide)
  exact h

/-- C10: `get_cart` is a constant function of the tool-call history: after
any sequence of prior requests (each leaving the server state unchanged,
since no handler writes it) it returns the fixed cart `cart-123` with no
items, `itemCount 0` and total `centAmount 0` — while every `add_to_cart`
in that history reports `success: true`. -/
theorem get_cart_constant (reqs : List (String × MCPBody)) (args args2 : ToolArgs) :
    callTool (runRequests initMCP reqs) "get_cart" args =
      .ok ⟨.cartRes ⟨"cart-123", [], ⟨0, "EUR"⟩, 0⟩, false⟩ ∧
    mockCart.items = [] ∧ mockCart.itemCount = 0 ∧
    callTool (runRequests initMCP reqs) "add_to_cart" args2 =
      .ok ⟨.addToCartRes ⟨true,
        "Added " ++ toString (args2.quantity.getD 1) ++ " item(s) to cart",
        args2.productId.getD "", args2.quantity.getD 1, args2.variantId⟩, false⟩ := by
  refine ⟨?_, rfl, rfl, ?_⟩
  · rw [runRequests_id]
    simp [callTool, initMCP, getCart, mockCart]
  · rw [runRequests_id]
    simp [callTool, initMCP, addToCart]

end Sunrise
